import Mathlib

set_option maxRecDepth 100000

/-
Verification of the permission-scoping core of a conversational
data-access agent: a session identity store, an authenticator, a
permission evaluator and three secure query operations, embedded as
pure Lean functions mirroring the Python source
(adk_short_bot/tools/user_context.py and
adk_short_bot/tools/secure_bigquery.py).
-/

namespace SecureBot

/-- Mirrors the dataclass UserContext of user_context.py. -/
structure UserContext where
  user_id : String
  email : String
  role : String
  company_ids : List String
  plan_ids : List String
  permissions : List String
  is_super_admin : Bool
deriving DecidableEq, Repr

/-- Mirrors check_permission of user_context.py: super admins pass any
check, otherwise membership in the permission list decides. -/
def check_permission (uc : UserContext) (required_permission : String) : Bool :=
  if uc.is_super_admin then true
  else uc.permissions.contains required_permission

/-- Mirrors get_user_data_scope of user_context.py: the SQL WHERE
clause limiting data access, built by direct string interpolation. -/
def get_user_data_scope (uc : UserContext) : String :=
  if uc.is_super_admin then ""
  else if uc.role = "participant" then
    "WHERE participant_email = '" ++ uc.email ++ "'"
  else if uc.role = "company_admin" then
    if uc.company_ids ≠ [] then
      "WHERE company_id IN ('" ++ String.intercalate "', '" uc.company_ids ++ "')"
    else "WHERE 1=0"
  else if uc.role = "plan_admin" then
    if uc.plan_ids ≠ [] then
      "WHERE plan_id IN ('" ++ String.intercalate "', '" uc.plan_ids ++ "')"
    else "WHERE 1=0"
  else if uc.role = "advisor" then
    if uc.company_ids ≠ [] then
      "WHERE company_id IN ('" ++ String.intercalate "', '" uc.company_ids ++ "')"
    else "WHERE 1=0"
  else "WHERE 1=0"

/-- Structured form of the visibility predicate, one constructor per
branch of get_user_data_scope. -/
inductive Scope where
  | unrestricted
  | emailEq (e : String)
  | companyIn (cs : List String)
  | planIn (ps : List String)
  | nothing
deriving DecidableEq, Repr

/-- The branch of get_user_data_scope taken for an identity, kept in
structured form. -/
def scopeOf (uc : UserContext) : Scope :=
  if uc.is_super_admin then .unrestricted
  else if uc.role = "participant" then .emailEq uc.email
  else if uc.role = "company_admin" then
    if uc.company_ids ≠ [] then .companyIn uc.company_ids else .nothing
  else if uc.role = "plan_admin" then
    if uc.plan_ids ≠ [] then .planIn uc.plan_ids else .nothing
  else if uc.role = "advisor" then
    if uc.company_ids ≠ [] then .companyIn uc.company_ids else .nothing
  else .nothing

/-- Rendering of a structured scope back to the SQL text built by
get_user_data_scope. -/
def Scope.render : Scope → String
  | .unrestricted => ""
  | .emailEq e => "WHERE participant_email = '" ++ e ++ "'"
  | .companyIn cs => "WHERE company_id IN ('" ++ String.intercalate "', '" cs ++ "')"
  | .planIn ps => "WHERE plan_id IN ('" ++ String.intercalate "', '" ps ++ "')"
  | .nothing => "WHERE 1=0"

/-- A data row carrying the three columns the scope filters mention. -/
structure Row where
  participant_email : String
  company_id : String
  plan_id : String
deriving DecidableEq, Repr

/-- Row-level semantics of a structured scope filter. -/
def Scope.matches : Scope → Row → Bool
  | .unrestricted, _ => true
  | .emailEq e, r => r.participant_email == e
  | .companyIn cs, r => cs.contains r.company_id
  | .planIn ps, r => ps.contains r.plan_id
  | .nothing, _ => false

/-- The structured scope renders to exactly the string
get_user_data_scope builds. -/
theorem scopeOf_render (uc : UserContext) :
    (scopeOf uc).render = get_user_data_scope uc := by
  unfold scopeOf get_user_data_scope
  split_ifs <;> rfl

/-- Modelled from the spec, §4.3 role table as the claim words it: the
role, not the flag, decides; role super_admin is unrestricted. -/
def claimRoleTableMatches (uc : UserContext) (r : Row) : Bool :=
  if uc.role = "super_admin" then true
  else if uc.role = "participant" then r.participant_email == uc.email
  else if uc.role = "company_admin" then uc.company_ids.contains r.company_id
  else if uc.role = "plan_admin" then uc.plan_ids.contains r.plan_id
  else if uc.role = "advisor" then uc.company_ids.contains r.company_id
  else false

/-- The role table amended: the is_super_admin flag, not the role
string, grants unrestricted visibility; all other rows unchanged. -/
def specAmendedMatches (uc : UserContext) (r : Row) : Bool :=
  if uc.is_super_admin then true
  else if uc.role = "participant" then r.participant_email == uc.email
  else if uc.role = "company_admin" then uc.company_ids.contains r.company_id
  else if uc.role = "plan_admin" then uc.plan_ids.contains r.plan_id
  else if uc.role = "advisor" then uc.company_ids.contains r.company_id
  else false

/-- An identity whose role is super_admin but whose is_super_admin
flag is false. -/
def ucRoleSuper : UserContext :=
  { user_id := "u0", email := "sa@x.com", role := "super_admin",
    company_ids := [], plan_ids := [], permissions := [],
    is_super_admin := false }

/-- A sample data row. -/
def rowSample : Row :=
  { participant_email := "p@x.com", company_id := "C1", plan_id := "P1" }

/-- C1 counterexample: for an identity with role super_admin but
is_super_admin = false, the §4.3 table as claimed grants visibility of
every row, yet the code's scope (WHERE 1=0) matches nothing. -/
theorem scope_role_table_cex :
    claimRoleTableMatches ucRoleSuper rowSample = true ∧
    Scope.matches (scopeOf ucRoleSuper) rowSample = false := by
  constructor <;> rfl

/-- C1 amended: for every identity, the code's visibility scope agrees
row-for-row with the role table once its super_admin row is read as
the is_super_admin flag: flag set is unrestricted; role participant
filters on participant_email = email; company_admin and advisor filter
on company_id membership in companyIds (matching nothing when empty);
plan_admin filters on plan_id membership in planIds (matching nothing
when empty); every other role, including role super_admin without the
flag, matches nothing. -/
theorem scope_matches_flag_table (uc : UserContext) (r : Row) :
    Scope.matches (scopeOf uc) r = specAmendedMatches uc r := by
  unfold scopeOf specAmendedMatches
  split_ifs with h1 h2 h3 h4 h5 h6 h7 h8 <;>
    simp_all [Scope.matches, List.contains]

/-- C3: check_permission returns true exactly when the identity is a
super admin or the requested capability is among its permissions; in
particular every super admin passes every check. -/
theorem check_permission_spec (uc : UserContext) (p : String) :
    check_permission uc p = true ↔
      (uc.is_super_admin = true ∨ p ∈ uc.permissions) := by
  unfold check_permission
  by_cases h : uc.is_super_admin <;>
    simp [h, List.contains, List.elem_iff]

/-- Does the character list n occur at the head of h? -/
def listLeadsWith : List Char → List Char → Bool
  | [], _ => true
  | _ :: _, [] => false
  | a :: n, b :: h => a == b && listLeadsWith n h

/-- Does the character list n occur contiguously anywhere in h? -/
def listContainsSeq (n : List Char) : List Char → Bool
  | [] => n.isEmpty
  | b :: h => listLeadsWith n (b :: h) || listContainsSeq n h

/-- Substring occurrence on strings, via the character lists. -/
def substrOf (needle hay : String) : Bool :=
  listContainsSeq needle.data hay.data

theorem listContainsSeq_append (n g h : List Char)
    (hh : listContainsSeq n h = true) :
    listContainsSeq n (g ++ h) = true := by
  induction g with
  | nil => simpa using hh
  | cons a g ih => simp [listContainsSeq, ih]

/-- A needle occurring in h occurs in any extension g ++ h. -/
theorem substrOf_append_right (n g h : String)
    (hh : substrOf n h = true) :
    substrOf n (g ++ h) = true := by
  unfold substrOf at *
  rw [String.data_append]
  exact listContainsSeq_append n.data g.data h.data hh

/-- Fixed text preceding the scope in the company-list query of
secure_query_companies. -/
def companiesPre : String :=
  "\n        SELECT \n            id,\n            name,\n            EIN,\n            entity_type,\n            contact_name,\n            contact_email\n        FROM dev_dataset.go401_dev_companies_company\n        "

/-- Fixed text following the scope in the company-list query,
including its ORDER BY and LIMIT 50. -/
def companiesPost : String :=
  "\n        ORDER BY name\n        LIMIT 50\n        "

/-- The company-list SQL built by secure_query_companies around a
scope clause. -/
def companiesQuery (data_scope : String) : String :=
  companiesPre ++ data_scope ++ companiesPost

/-- Fixed text preceding the scope in the participant-list query of
secure_query_participants. -/
def participantsPre : String :=
  "\n        SELECT \n            id,\n            email,\n            first_name,\n            last_name,\n            company_id,\n            enrollment_date\n        FROM dev_dataset.go401_dev_participants_participant\n        "

/-- Fixed text following the scope in the participant-list query,
including its ORDER BY and LIMIT 100. -/
def participantsPost : String :=
  "\n        ORDER BY last_name, first_name\n        LIMIT 100\n        "

/-- The participant-list SQL built by secure_query_participants around
a scope clause. -/
def participantsQuery (data_scope : String) : String :=
  participantsPre ++ data_scope ++ participantsPost

/-- Fixed text preceding the scope in the count query of
secure_company_count. -/
def countPre : String :=
  "\n        SELECT COUNT(*) as company_count\n        FROM dev_dataset.go401_dev_companies_company\n        "

/-- Fixed text following the scope in the count query: no ORDER BY and
no LIMIT. -/
def countPost : String :=
  "\n        "

/-- The count SQL built by secure_company_count around a scope
clause. -/
def countQuery (data_scope : String) : String :=
  countPre ++ data_scope ++ countPost

/-- The not-authenticated message shared by every secure operation. -/
def notAuthMsg : String :=
  "Error: User not authenticated. Please authenticate first using authenticate_user function."

/-- What a secure operation decides to do before any backend call:
refuse for lack of authentication, deny, return a role-specific
refusal message, or run a SQL query. -/
inductive OpAction where
  | notAuthenticated (msg : String)
  | denied (msg : String)
  | refused (msg : String)
  | query (sql : String)
deriving DecidableEq, Repr

/-- Mirrors secure_query_companies of secure_bigquery.py up to the
backend call: authentication check, capability check, participant
refusal, then the scoped company-list query. -/
def secure_query_companies_action (store : Option UserContext) : OpAction :=
  match store with
  | none => .notAuthenticated notAuthMsg
  | some uc =>
    if check_permission uc "view_companies" then
      let data_scope := get_user_data_scope uc
      if uc.role = "participant" then
        .refused "Participants cannot view company-level data."
      else
        .query (companiesQuery data_scope)
    else
      .denied ("Access denied. Your role '" ++ uc.role ++
        "' does not have permission to view companies.")

/-- Mirrors secure_query_participants of secure_bigquery.py up to the
backend call, including the optional company-id filter with its
role-based ownership check (an empty string argument is falsy in the
source and is ignored). -/
def secure_query_participants_action
    (store : Option UserContext) (company_id : Option String) : OpAction :=
  match store with
  | none => .notAuthenticated notAuthMsg
  | some uc =>
    if check_permission uc "view_participants" then
      let data_scope := get_user_data_scope uc
      match company_id with
      | some c =>
        if c ≠ "" then
          if uc.role ≠ "super_admin" ∧ uc.company_ids.contains c = false then
            .denied ("Access denied. You don't have access to company ID '" ++ c ++ "'.")
          else
            let ds :=
              if data_scope ≠ "" then
                data_scope ++ " AND company_id = '" ++ c ++ "'"
              else
                "WHERE company_id = '" ++ c ++ "'"
            .query (participantsQuery ds)
        else .query (participantsQuery data_scope)
      | none => .query (participantsQuery data_scope)
    else
      .denied ("Access denied. Your role '" ++ uc.role ++
        "' does not have permission to view participants.")

/-- Mirrors secure_company_count of secure_bigquery.py in full: the
backend is a function from the SQL text to either an error or the list
of company_count rows; the source returns on the first row, and when
the row list is empty it falls through the loop and the handler and
returns Python None, embedded as Option.none. -/
def secure_company_count (store : Option UserContext)
    (backend : String → Except String (List Nat)) : Option String :=
  match store with
  | none => some notAuthMsg
  | some uc =>
    if check_permission uc "view_companies" then
      match backend (countQuery (get_user_data_scope uc)) with
      | .error e => some ("Error counting companies: " ++ e)
      | .ok [] => none
      | .ok (c :: _) =>
        some (if uc.is_super_admin then
          "Total companies in the system: " ++ toString c
        else
          "Companies you have access to: " ++ toString c)
    else
      some ("Access denied. Your role '" ++ uc.role ++
        "' does not have permission to view companies.")

/-- Outcome of the backing identity lookup: a row, zero rows, or a
raised backend error. -/
inductive LookupResult where
  | found (uc : UserContext)
  | notFound
  | backendError (msg : String)
deriving DecidableEq, Repr

/-- The constant SQL of the identity lookup in get_user_context; the
email appears only as the placeholder @user_email. -/
def user_lookup_query : String :=
  "\n        SELECT \n            u.id as user_id,\n            u.email,\n            u.role,\n            u.is_super_admin,\n            ARRAY_AGG(DISTINCT uc.company_id) as company_ids,\n            ARRAY_AGG(DISTINCT up.plan_id) as plan_ids,\n            ARRAY_AGG(DISTINCT p.permission_name) as permissions\n        FROM dev_dataset.go401_dev_accounts_user u\n        LEFT JOIN dev_dataset.go401_dev_user_companies uc ON u.id = uc.user_id\n        LEFT JOIN dev_dataset.go401_dev_user_plans up ON u.id = up.user_id  \n        LEFT JOIN dev_dataset.go401_dev_user_permissions up_perm ON u.id = up_perm.user_id\n        LEFT JOIN dev_dataset.go401_dev_permissions p ON up_perm.permission_id = p.id\n        WHERE u.email = @user_email\n        GROUP BY u.id, u.email, u.role, u.is_super_admin\n        "

/-- The bound query parameters of the identity lookup: name, type and
value, mirroring the ScalarQueryParameter of get_user_context. -/
def user_lookup_params (email : String) : List (String × String × String) :=
  [("user_email", "STRING", email)]

/-- Mirrors get_user_context of user_context.py: runs the lookup with
the email as a bound parameter; zero rows and raised errors both
collapse to Python None. -/
def get_user_context
    (runner : String → List (String × String × String) → LookupResult)
    (email : String) : Option UserContext :=
  match runner user_lookup_query (user_lookup_params email) with
  | .found uc => some uc
  | .notFound => none
  | .backendError _ => none

/-- Mirrors set_user_context of user_context.py: the session slot is
assigned the fresh lookup result, whatever it is, and the call reports
whether that result is present; the prior slot value is discarded. -/
def set_user_context
    (runner : String → List (String × String × String) → LookupResult)
    (email : String) (prior : Option UserContext) :
    Bool × Option UserContext :=
  let nc := get_user_context runner email
  (nc.isSome, nc)

/-- Join a list with commas or write None, as the success message of
authenticate_user does. -/
def joinOrNone (xs : List String) : String :=
  if xs ≠ [] then String.intercalate ", " xs else "None"

/-- The success message of authenticate_user. -/
def authSuccessMsg (uc : UserContext) : String :=
  "User authenticated successfully!\n        \nUser: " ++ uc.email ++
  "\nRole: " ++ uc.role ++
  "\nCompanies: " ++ joinOrNone uc.company_ids ++
  "\nPlans: " ++ joinOrNone uc.plan_ids ++
  "\nPermissions: " ++ joinOrNone uc.permissions ++
  "\nSuper Admin: " ++ (if uc.is_super_admin then "True" else "False") ++
  "\n\nYou can now access data according to your permissions."

/-- Mirrors authenticate_user of secure_bigquery.py: sets the session
slot from the lookup and renders a status message; the pair is the
message together with the new slot value. -/
def authenticate_user
    (runner : String → List (String × String × String) → LookupResult)
    (email : String) (prior : Option UserContext) :
    String × Option UserContext :=
  let r := set_user_context runner email prior
  match r.2 with
  | some uc => (authSuccessMsg uc, some uc)
  | none =>
    ("Authentication failed. User '" ++ email ++ "' not found or has no access.",
     none)

/-- A participant holding the view_companies capability. -/
def ucParticipantVC : UserContext :=
  { user_id := "u7", email := "a@x.com", role := "participant",
    company_ids := [], plan_ids := [],
    permissions := ["view_companies"], is_super_admin := false }

/-- C2 counterexample: a participant holding view_companies is not
refused by secure_company_count; the count query runs and its backend
result is rendered — here a backend answering 7 yields the access
count message rather than any denial. -/
theorem participant_count_runs_cex :
    secure_company_count (some ucParticipantVC) (fun _ => Except.ok [7]) =
      some "Companies you have access to: 7" := by
  rfl

/-- C2 amended: a participant with the view_companies capability is
refused by secure_query_companies before any query, but
secure_company_count has no participant rule: it runs the scoped count
query and returns whatever count the backend delivers. -/
theorem participant_company_ops_amended (uc : UserContext)
    (h1 : uc.role = "participant") (h2 : uc.is_super_admin = false)
    (h3 : uc.permissions.contains "view_companies" = true) :
    secure_query_companies_action (some uc) =
      .refused "Participants cannot view company-level data." ∧
    ∀ n : Nat, secure_company_count (some uc) (fun _ => Except.ok [n]) =
      some ("Companies you have access to: " ++ toString n) := by
  have h3' : "view_companies" ∈ uc.permissions := by simpa using h3
  constructor
  · simp [secure_query_companies_action, check_permission, h1, h2, h3']
  · intro n
    simp [secure_company_count, check_permission, h1, h2, h3']

/-- C2 amended witness at a concrete participant identity. -/
theorem participant_company_ops_amended_witness :
    secure_query_companies_action (some ucParticipantVC) =
      .refused "Participants cannot view company-level data." ∧
    ∀ n : Nat, secure_company_count (some ucParticipantVC) (fun _ => Except.ok [n]) =
      some ("Companies you have access to: " ++ toString n) :=
  participant_company_ops_amended ucParticipantVC rfl rfl rfl

/-- C4: with no identity in the session store, every secure operation
returns the not-authenticated message and never reaches a backend —
the two list operations decide notAuthenticated before any query, and
the count result is the same message for every backend. -/
theorem unauthenticated_ops_denied :
    secure_query_companies_action none = .notAuthenticated notAuthMsg ∧
    (∀ cid : Option String,
      secure_query_participants_action none cid = .notAuthenticated notAuthMsg) ∧
    (∀ backend : String → Except String (List Nat),
      secure_company_count none backend = some notAuthMsg) := by
  refine ⟨rfl, fun cid => rfl, fun backend => rfl⟩

/-- C5: for an authenticated identity holding view_participants and a
non-empty requested company id, role super_admin bypasses the
ownership check; any other role is denied exactly when the id is
outside its companyIds, and an owned id is conjoined into the scope so
the query's predicate ends in company_id = that id. -/
theorem participants_company_filter_auth (uc : UserContext) (c : String)
    (hperm : check_permission uc "view_participants" = true)
    (hc : c ≠ "") :
    (uc.role = "super_admin" →
      ∃ s, secure_query_participants_action (some uc) (some c) = .query s) ∧
    (uc.role ≠ "super_admin" →
      (secure_query_participants_action (some uc) (some c) =
          .denied ("Access denied. You don't have access to company ID '" ++ c ++ "'.")
        ↔ uc.company_ids.contains c = false) ∧
      (uc.company_ids.contains c = true →
        ∃ pre, secure_query_participants_action (some uc) (some c) =
          .query (participantsQuery (pre ++ ("company_id = '" ++ c ++ "'"))))) := by
  constructor
  · intro hrole
    by_cases hds : get_user_data_scope uc = ""
    · exact ⟨participantsQuery ("WHERE company_id = '" ++ c ++ "'"),
        by simp [secure_query_participants_action, hperm, hc, hrole, hds]⟩
    · exact ⟨participantsQuery (get_user_data_scope uc ++ " AND company_id = '" ++ c ++ "'"),
        by simp [secure_query_participants_action, hperm, hc, hrole, hds]⟩
  · intro hrole
    constructor
    · by_cases hmem : c ∈ uc.company_ids
      · have hmemc : uc.company_ids.contains c = true := by simpa using hmem
        by_cases hds : get_user_data_scope uc = "" <;>
          simp [secure_query_participants_action, hperm, hc, hrole, hmem, hmemc, hds]
      · have hmemc : uc.company_ids.contains c = false := by simpa using hmem
        simp [secure_query_participants_action, hperm, hc, hrole, hmem, hmemc]
    · intro hmemc
      have hmem : c ∈ uc.company_ids := by simpa using hmemc
      by_cases hds : get_user_data_scope uc = ""
      · refine ⟨"WHERE ", ?_⟩
        have hact : secure_query_participants_action (some uc) (some c) =
            .query (participantsQuery ("WHERE company_id = '" ++ c ++ "'")) := by
          simp [secure_query_participants_action, hperm, hc, hrole, hmem, hds]
        rw [hact]
        rfl
      · refine ⟨get_user_data_scope uc ++ " AND ", ?_⟩
        have hact : secure_query_participants_action (some uc) (some c) =
            .query (participantsQuery
              (get_user_data_scope uc ++ " AND company_id = '" ++ c ++ "'")) := by
          simp [secure_query_participants_action, hperm, hc, hrole, hmem, hds]
        rw [hact]
        have hstr : get_user_data_scope uc ++ " AND company_id = '" ++ c ++ "'" =
            (get_user_data_scope uc ++ " AND ") ++ ("company_id = '" ++ c ++ "'") := by
          conv_lhs => rw [String.append_assoc, String.append_assoc]
          conv_rhs => rw [String.append_assoc]
          rfl
        rw [hstr]

/-- C5 witness: a company_admin owning C1 and C2 requesting C1. -/
theorem participants_company_filter_auth_witness :
    ∃ pre, secure_query_participants_action
        (some { user_id := "u1", email := "ca@x.com", role := "company_admin",
                company_ids := ["C1", "C2"], plan_ids := [],
                permissions := ["view_participants"], is_super_admin := false })
        (some "C1") =
      .query (participantsQuery (pre ++ ("company_id = '" ++ "C1" ++ "'"))) := by
  have h := participants_company_filter_auth
    { user_id := "u1", email := "ca@x.com", role := "company_admin",
      company_ids := ["C1", "C2"], plan_ids := [],
      permissions := ["view_participants"], is_super_admin := false }
    "C1" (by decide) (by decide)
  exact (h.2 (by decide)).2 (by decide)

/-- A previously authenticated company admin, used as the prior
session identity. -/
def ucPrior : UserContext :=
  { user_id := "u9", email := "old@x.com", role := "company_admin",
    company_ids := ["C1"], plan_ids := [],
    permissions := ["view_companies"], is_super_admin := false }

/-- C6 counterexample: a failed authenticate wipes the previously
stored identity (the slot becomes absent, not the prior identity), and
the user-not-found and backend-error failures produce the very same
message, not distinct kinds. -/
theorem auth_failure_cex :
    (set_user_context (fun _ _ => .notFound) "ghost@x.com" (some ucPrior)).2 = none ∧
    (authenticate_user (fun _ _ => .notFound) "ghost@x.com" (some ucPrior)).1 =
      (authenticate_user (fun _ _ => .backendError "network down")
        "ghost@x.com" (some ucPrior)).1 := by
  constructor <;> rfl

/-- C6 amended: whenever the lookup produces no identity — zero rows
or a backend error alike — authenticate_user reports one generic
failure message for both kinds and clears the Session Identity Store
to absent, discarding whatever identity was stored before. -/
theorem auth_failure_clears_store
    (runner : String → List (String × String × String) → LookupResult)
    (email : String) (prior : Option UserContext)
    (h : get_user_context runner email = none) :
    (authenticate_user runner email prior).2 = none ∧
    (authenticate_user runner email prior).1 =
      "Authentication failed. User '" ++ email ++ "' not found or has no access." := by
  simp [authenticate_user, set_user_context, h]

/-- C6 amended witness: a lookup finding nobody, run over a prior
stored identity. -/
theorem auth_failure_clears_store_witness :
    (authenticate_user (fun _ _ => .notFound) "ghost@x.com" (some ucPrior)).2 = none ∧
    (authenticate_user (fun _ _ => .notFound) "ghost@x.com" (some ucPrior)).1 =
      "Authentication failed. User '" ++ "ghost@x.com" ++ "' not found or has no access." :=
  auth_failure_clears_store (fun _ _ => .notFound) "ghost@x.com" (some ucPrior) rfl

/-- A participant identity used to exhibit string interpolation. -/
def ucAlice : UserContext :=
  { user_id := "u3", email := "alice@x.com", role := "participant",
    company_ids := [], plan_ids := [], permissions := [],
    is_super_admin := false }

/-- C7 counterexample: the visibility filter for a participant
contains the caller's email verbatim — the user-supplied value is
concatenated into the SQL WHERE clause, not passed as a bound
parameter. -/
theorem interpolation_cex :
    substrOf "alice@x.com" (get_user_data_scope ucAlice) = true ∧
    get_user_data_scope ucAlice = "WHERE participant_email = 'alice@x.com'" := by
  constructor <;> rfl

/-- C7 amended: only the authenticate lookup is parameterized — its
SQL mentions the placeholder @user_email and the email travels in the
bound-parameter list — while every visibility filter interpolates the
identity's email or entity ids directly into the WHERE clause text
(participant, company_admin, plan_admin and advisor branches alike),
and secure_query_participants concatenates the caller-supplied
company id verbatim into the WHERE text of the query it builds. -/
theorem scope_interpolation_amended (uc : UserContext)
    (hs : uc.is_super_admin = false) :
    (uc.role = "participant" →
      get_user_data_scope uc = "WHERE participant_email = '" ++ uc.email ++ "'") ∧
    (uc.role = "company_admin" → uc.company_ids ≠ [] →
      get_user_data_scope uc =
        "WHERE company_id IN ('" ++ String.intercalate "', '" uc.company_ids ++ "')") ∧
    (uc.role = "plan_admin" → uc.plan_ids ≠ [] →
      get_user_data_scope uc =
        "WHERE plan_id IN ('" ++ String.intercalate "', '" uc.plan_ids ++ "')") ∧
    (uc.role = "advisor" → uc.company_ids ≠ [] →
      get_user_data_scope uc =
        "WHERE company_id IN ('" ++ String.intercalate "', '" uc.company_ids ++ "')") ∧
    (∀ c : String, c ≠ "" → check_permission uc "view_participants" = true →
      uc.role ≠ "super_admin" → uc.company_ids.contains c = true →
      ∃ pre, secure_query_participants_action (some uc) (some c) =
        .query (participantsQuery (pre ++ ("company_id = '" ++ c ++ "'")))) ∧
    substrOf "@user_email" user_lookup_query = true ∧
    user_lookup_params uc.email = [("user_email", "STRING", uc.email)] := by
  refine ⟨?_, ?_, ?_, ?_, ?_, by decide, rfl⟩
  · intro h
    simp [get_user_data_scope, hs, h]
  · intro h hne
    simp [get_user_data_scope, hs, h, hne]
  · intro h hne
    simp [get_user_data_scope, hs, h, hne]
  · intro h hne
    simp [get_user_data_scope, hs, h, hne]
  · intro c hc hperm hrole hmemc
    have hmem : c ∈ uc.company_ids := by simpa using hmemc
    by_cases hds : get_user_data_scope uc = ""
    · refine ⟨"WHERE ", ?_⟩
      have hact : secure_query_participants_action (some uc) (some c) =
          .query (participantsQuery ("WHERE company_id = '" ++ c ++ "'")) := by
        simp [secure_query_participants_action, hperm, hc, hrole, hmem, hds]
      rw [hact]
      rfl
    · refine ⟨get_user_data_scope uc ++ " AND ", ?_⟩
      have hact : secure_query_participants_action (some uc) (some c) =
          .query (participantsQuery
            (get_user_data_scope uc ++ " AND company_id = '" ++ c ++ "'")) := by
        simp [secure_query_participants_action, hperm, hc, hrole, hmem, hds]
      rw [hact]
      have hstr : get_user_data_scope uc ++ " AND company_id = '" ++ c ++ "'" =
          (get_user_data_scope uc ++ " AND ") ++ ("company_id = '" ++ c ++ "'") := by
        conv_lhs => rw [String.append_assoc, String.append_assoc]
        conv_rhs => rw [String.append_assoc]
        rfl
      rw [hstr]

/-- C7 amended witness at a concrete participant identity. -/
theorem scope_interpolation_amended_witness :
    (ucAlice.role = "participant" →
      get_user_data_scope ucAlice = "WHERE participant_email = '" ++ ucAlice.email ++ "'") ∧
    (ucAlice.role = "company_admin" → ucAlice.company_ids ≠ [] →
      get_user_data_scope ucAlice =
        "WHERE company_id IN ('" ++ String.intercalate "', '" ucAlice.company_ids ++ "')") ∧
    (ucAlice.role = "plan_admin" → ucAlice.plan_ids ≠ [] →
      get_user_data_scope ucAlice =
        "WHERE plan_id IN ('" ++ String.intercalate "', '" ucAlice.plan_ids ++ "')") ∧
    (ucAlice.role = "advisor" → ucAlice.company_ids ≠ [] →
      get_user_data_scope ucAlice =
        "WHERE company_id IN ('" ++ String.intercalate "', '" ucAlice.company_ids ++ "')") ∧
    (∀ c : String, c ≠ "" → check_permission ucAlice "view_participants" = true →
      ucAlice.role ≠ "super_admin" → ucAlice.company_ids.contains c = true →
      ∃ pre, secure_query_participants_action (some ucAlice) (some c) =
        .query (participantsQuery (pre ++ ("company_id = '" ++ c ++ "'")))) ∧
    substrOf "@user_email" user_lookup_query = true ∧
    user_lookup_params ucAlice.email = [("user_email", "STRING", ucAlice.email)] :=
  scope_interpolation_amended ucAlice rfl

/-- A super admin identity (flag set) with role super_admin. -/
def ucSuper : UserContext :=
  { user_id := "u5", email := "root@x.com", role := "super_admin",
    company_ids := [], plan_ids := [], permissions := [],
    is_super_admin := true }

/-- C8 counterexample: the participant-list query actually built by
secure_query_participants carries LIMIT 100, not the claimed cap of
50 rows. -/
theorem row_cap_cex :
    secure_query_participants_action (some ucSuper) none =
      .query (participantsQuery "") ∧
    substrOf "LIMIT 50" (participantsQuery "") = false ∧
    substrOf "LIMIT 100" (participantsQuery "") = true := by
  refine ⟨rfl, by decide, by decide⟩

/-- C8 amended: for every scope clause, the company-list query carries
LIMIT 50, the participant-list query carries LIMIT 100 (its rendering,
not its query, truncates at 50), and the count query is the fixed
aggregate text around the scope with no LIMIT added by the builder. -/
theorem row_caps_amended (scope : String) :
    substrOf "LIMIT 50" (companiesQuery scope) = true ∧
    substrOf "LIMIT 100" (participantsQuery scope) = true ∧
    countQuery scope = countPre ++ scope ++ countPost ∧
    substrOf "LIMIT" countPre = false ∧
    substrOf "LIMIT" countPost = false := by
  refine ⟨?_, ?_, rfl, by decide, by decide⟩
  · exact substrOf_append_right _ _ _ (by decide)
  · exact substrOf_append_right _ _ _ (by decide)

/-- The identity looked up by the second, replacing authentication. -/
def ucNew : UserContext :=
  { user_id := "u2", email := "new@x.com", role := "plan_admin",
    company_ids := [], plan_ids := ["P9"],
    permissions := ["view_participants"], is_super_admin := false }

/-- C9: after a successful re-authentication, the session slot holds
exactly the freshly looked-up identity — every observable field comes
from the new lookup, and nothing of the prior identity or of the first
authentication survives, whatever they were. -/
theorem reauth_replaces_identity
    (runner : String → List (String × String × String) → LookupResult)
    (prior : Option UserContext) (e1 e2 : String) (uc2 : UserContext)
    (h : runner user_lookup_query (user_lookup_params e2) = .found uc2) :
    set_user_context runner e2 (set_user_context runner e1 prior).2 =
      (true, some uc2) := by
  simp [set_user_context, get_user_context, h]

/-- C9 witness: re-authenticating from old@x.com to new@x.com over a
prior identity, with a lookup distinguishing the two emails. -/
theorem reauth_replaces_identity_witness :
    set_user_context
      (fun _ ps => if ps = [("user_email", "STRING", "new@x.com")] then .found ucNew else .found ucPrior)
      "new@x.com"
      (set_user_context
        (fun _ ps => if ps = [("user_email", "STRING", "new@x.com")] then .found ucNew else .found ucPrior)
        "old@x.com" (some ucPrior)).2 =
      (true, some ucNew) :=
  reauth_replaces_identity _ (some ucPrior) "old@x.com" "new@x.com" ucNew (by decide)

/-- C10: an authenticated identity passing the view_companies check,
whose count query completes without error yet yields zero rows, makes
secure_company_count fall through its result loop and its handler and
return Python None — embedded as Option.none, no message at all. -/
theorem count_zero_rows_none (uc : UserContext)
    (backend : String → Except String (List Nat))
    (hperm : check_permission uc "view_companies" = true)
    (hb : backend (countQuery (get_user_data_scope uc)) = .ok []) :
    secure_company_count (some uc) backend = none := by
  simp [secure_company_count, hperm, hb]

/-- C10 witness: a super admin with a zero-row backend. -/
theorem count_zero_rows_none_witness :
    secure_company_count (some ucSuper) (fun _ => Except.ok []) = none :=
  count_zero_rows_none ucSuper (fun _ => Except.ok []) rfl rfl

end SecureBot
